import Mathlib

/-!
Verification of `langchain/prompts/few_shot.py`: the few-shot prompt
composition engine.  The mixin `_FewShotPromptTemplateMixin`, the string
composer `FewShotPromptTemplate` and the message composer
`FewShotChatMessagePromptTemplate` are embedded below; external
collaborators (the formatting engines, the base-class partial-variable
merge and serialization, message abstractions) are modelled from the spec
where the corresponding code is outside the excerpt.
-/

/-- An example record / input mapping: a Python dict from string keys to
string values, represented as an association list where the first binding
for a key wins. -/
abbrev Record := List (String × String)

/-- Python dict lookup `d[k]` / `d.get(k)`: first binding wins. -/
def rlookup : Record → String → Option String
  | [], _ => none
  | (k, v) :: rest, key => if k = key then some v else rlookup rest key

/-- An ExampleSelector capability: `select_examples(input_mapping)` returns an
ordered sequence of example records.  Its policy is external; we model it as
a total function. -/
abbrev Selector := Record → List Record

/-- Python truthiness of the optional `examples` field: `None` and the empty
list are falsy, a non-empty list is truthy. -/
def truthyList : Option (List Record) → Bool
  | some (_ :: _) => true
  | _ => false

/-- The `@root_validator(pre=True)` `check_examples_and_selector` of
`_FewShotPromptTemplateMixin` (few_shot.py lines 37-52): raises ValueError
when `examples and example_selector` is truthy, and when both are `None`. -/
def check_examples_and_selector (examples : Option (List Record))
    (example_selector : Option Selector) : Except String Unit :=
  if truthyList examples && example_selector.isSome then
    .error "Only one of examples and example_selector should be provided"
  else if examples.isNone && example_selector.isNone then
    .error "One of examples and example_selector should be provided"
  else
    .ok ()

/-- The mixin operation `_get_examples` (few_shot.py lines 54-70):
`examples` when it is not `None`, else `example_selector.select_examples(kwargs)`,
else a defensive ValueError. -/
def get_examples (examples : Option (List Record))
    (example_selector : Option Selector) (kwargs : Record) :
    Except String (List Record) :=
  match examples with
  | some es => .ok es
  | none =>
    match example_selector with
    | some sel => .ok (sel kwargs)
    | none => .error "One of examples and example_selector should be provided"

/-- Evaluation of a Python list comprehension whose body may raise:
elements are processed left to right and the first error aborts. -/
def mapE (f : α → Except String β) : List α → Except String (List β)
  | [] => .ok []
  | a :: l =>
    match f a with
    | .error e => .error e
    | .ok b => (mapE f l).map (fun bs => b :: bs)

/-- The dict comprehension `\x7bk: e[k] for k in example_prompt.input_variables\x7d`
(few_shot.py lines 145 and 324): project exactly the listed keys out of a
record; a missing key raises KeyError. -/
def projectKeys (vars : List String) (e : Record) : Except String Record :=
  match vars with
  | [] => .ok []
  | k :: rest =>
    match rlookup e k with
    | none => .error ("KeyError: " ++ k)
    | some v => (projectKeys rest e).map (fun r => (k, v) :: r)

/-- Modelled from the spec: the ExampleTemplate capability (string mode) used
as `example_prompt` — declared `input_variables` and a total `format` function
on the projected record.  The concrete PromptTemplate class is outside the
excerpt. -/
structure PromptTemplate where
  input_variables : List String
  formatWith : Record → String

/-- Modelled from the spec: `_merge_partial_and_user_variables` of the base
class (outside the excerpt) — partial values fill placeholders not supplied by
the caller and caller-supplied values take precedence; with first-binding-wins
lookup, listing the caller's bindings first realizes exactly that. -/
def mergeVariables (preset : Record) (kwargs : Record) : Record :=
  kwargs ++ preset

def lbrace : Char := Char.ofNat 123

def rbrace : Char := Char.ofNat 125

/-- Modelled from the spec: the f-string formatting engine behind
`DEFAULT_FORMATTER_MAPPING` (outside the excerpt) — each brace-delimited
placeholder is replaced by the value bound to its name in the mapping; a
placeholder naming an unbound variable is a formatting error naming the
missing variable, and an unterminated placeholder is a formatting error.
The second argument is `none` outside a placeholder and `some acc` while
collecting the characters of a placeholder name. -/
def fstringAux (m : Record) : List Char → Option (List Char) → Except String String
  | [], none => .ok ""
  | [], some _ => .error "unterminated placeholder"
  | c :: rest, none =>
    if c = lbrace then fstringAux m rest (some [])
    else (fstringAux m rest none).map (fun t => String.mk [c] ++ t)
  | c :: rest, some acc =>
    if c = rbrace then
      match rlookup m (String.mk acc) with
      | none => .error ("missing variable: " ++ String.mk acc)
      | some v => (fstringAux m rest none).map (fun t => v ++ t)
    else fstringAux m rest (some (acc ++ [c]))

/-- The f-string engine on strings. -/
def fstringFormat (template : String) (m : Record) : Except String String :=
  fstringAux m template.data none

/-- Modelled from the spec: `DEFAULT_FORMATTER_MAPPING` (outside the excerpt)
is a fixed mapping from format-name to engine.  Only the f-string engine is
modelled, as no claim exercises jinja2; an unknown name is a lookup error. -/
def formatterMapping (name : String) :
    Option (String → Record → Except String String) :=
  if name = "f-string" then some fstringFormat else none

/-- Python `sep.join(pieces)`. -/
def sepJoin (sep : String) : List String → String
  | [] => ""
  | [p] => p
  | p :: q :: rest => p ++ sep ++ sepJoin sep (q :: rest)

/-- The assembly step of `FewShotPromptTemplate.format` (few_shot.py lines
148-150): `pieces = [self.prefix, *example_strings, self.suffix]`, then
`self.example_separator.join([piece for piece in pieces if piece])`. -/
def intermediateTemplate (pre : String) (example_strings : List String)
    (suf : String) (sep : String) : String :=
  sepJoin sep ((pre :: (example_strings ++ [suf])).filter (fun piece => piece != ""))

/-- The string composer `FewShotPromptTemplate` (few_shot.py lines 73-164).
`prefix_` embeds the `prefix` field (`prefix` is a Lean keyword) and
`preset_variables` embeds the base-class `partial_variables` mapping. -/
structure FewShotPromptTemplate where
  examples : Option (List Record) := none
  example_selector : Option Selector := none
  validate_template : Bool := true
  input_variables : List String
  example_prompt : PromptTemplate
  suffix : String
  example_separator : String := "\n\n"
  prefix_ : String := ""
  template_format : String := "f-string"
  preset_variables : Record := []

/-- The method `FewShotPromptTemplate.format` (few_shot.py lines 124-153):
merge partial and user variables, acquire the examples, project each record
to `example_prompt.input_variables`, render each through `example_prompt`,
assemble prefix/examples/suffix into the intermediate template, and apply
the engine selected by `template_format` to it with the merged inputs. -/
def FewShotPromptTemplate.format (t : FewShotPromptTemplate)
    (kwargs : Record) : Except String String :=
  let merged := mergeVariables t.preset_variables kwargs
  match get_examples t.examples t.example_selector merged with
  | .error e => .error e
  | .ok examples =>
    match mapE (projectKeys t.example_prompt.input_variables) examples with
    | .error e => .error e
    | .ok projected =>
      let example_strings := projected.map t.example_prompt.formatWith
      let template :=
        intermediateTemplate t.prefix_ example_strings t.suffix t.example_separator
      match formatterMapping t.template_format with
      | none => .error ("unsupported template_format: " ++ t.template_format)
      | some engine => engine template merged

/-- The declared variable set for template validation:
`input_variables + list(partial_variables)` (few_shot.py line 113). -/
def declaredVars (t : FewShotPromptTemplate) : List String :=
  t.input_variables ++ t.preset_variables.map Prod.fst

/-- Modelled from the spec: the placeholder scan underlying
`check_valid_template` — the brace-delimited names occurring in a template,
left to right; an unterminated placeholder is an error.  The second argument
is `none` outside a placeholder and `some acc` while collecting a name. -/
def extractVarsAux : List Char → Option (List Char) → Except String (List String)
  | [], none => .ok []
  | [], some _ => .error "unterminated placeholder"
  | c :: rest, none =>
    if c = lbrace then extractVarsAux rest (some [])
    else extractVarsAux rest none
  | c :: rest, some acc =>
    if c = rbrace then
      (extractVarsAux rest none).map (fun vs => String.mk acc :: vs)
    else extractVarsAux rest (some (acc ++ [c]))

/-- Modelled from the spec: `check_valid_template` (langchain.prompts.base,
outside the excerpt) — the template text together with the declared variables
must reference exactly that variable set: a placeholder naming an undeclared
variable, or a declared variable with no placeholder, is a construction-time
ValueError. -/
def check_valid_template (template : String) (vars : List String) :
    Except String Unit :=
  match extractVarsAux template.data none with
  | .error e => .error e
  | .ok evs =>
    if evs.all (fun e => decide (e ∈ vars)) then
      if vars.all (fun v => decide (v ∈ evs)) then .ok ()
      else .error "Invalid prompt schema: unused input variables"
    else .error "Invalid prompt schema: undeclared template variables"

/-- The `@root_validator()` `template_is_valid` (few_shot.py lines 106-115):
when `validate_template` is set, check `prefix + suffix` against
`input_variables + list(partial_variables)`. -/
def template_is_valid (t : FewShotPromptTemplate) : Except String Unit :=
  if t.validate_template then
    check_valid_template (t.prefix_ ++ t.suffix) (declaredVars t)
  else
    .ok ()

/-- Pydantic construction of a `FewShotPromptTemplate`: the pre root
validator `check_examples_and_selector`, then the root validator
`template_is_valid`; the instance is returned only if both pass. -/
def FewShotPromptTemplate.construct (t : FewShotPromptTemplate) :
    Except String FewShotPromptTemplate :=
  match check_examples_and_selector t.examples t.example_selector with
  | .error e => .error e
  | .ok _ =>
    match template_is_valid t with
    | .error e => .error e
    | .ok _ => .ok t

/-- Modelled from the spec: the base-class serialization `super().dict()`
(outside the excerpt) succeeds, dumping the configuration mapping tagged with
the `prompt_type` identifier constant `"few_shot"`. -/
def baseDict (t : FewShotPromptTemplate) : List (String × String) :=
  [("_type", "few_shot"), ("prefix", t.prefix_), ("suffix", t.suffix),
   ("example_separator", t.example_separator),
   ("template_format", t.template_format)]

/-- The method `FewShotPromptTemplate.dict` (few_shot.py lines 160-164):
raise ValueError when an `example_selector` is configured (a selector object
is truthy), else delegate to the base-class dump. -/
def FewShotPromptTemplate.dict (t : FewShotPromptTemplate) :
    Except String (List (String × String)) :=
  if t.example_selector.isSome then
    .error "Saving an example selector is not currently supported"
  else
    .ok (baseDict t)

/-- Modelled from the spec: an opaque chat message (the message abstraction
is outside the excerpt); the constructors cover the roles the spec's
examples use. -/
inductive Message where
  | system : String → Message
  | human : String → Message
  | ai : String → Message
deriving DecidableEq

/-- Modelled from the spec: the MessageTemplate capability (message mode)
used as `example_prompt` and as prefix/suffix entries — declared
`input_variables` and a total `format_messages` expansion. -/
structure MessageTemplate where
  input_variables : List String
  format_messages : Record → List Message

/-- A prefix/suffix entry of the message composer: either a literal
`BaseMessage` or a message-prompt-template; the source distinguishes the two
by an `isinstance` test (few_shot.py lines 327-335). -/
inductive MessageLike where
  | literal : Message → MessageLike
  | template : MessageTemplate → MessageLike

/-- Expansion of one prefix/suffix entry (few_shot.py lines 330-334): a
template is expanded with the call's kwargs, a literal message is emitted
unchanged as a singleton. -/
def expandEntry (kwargs : Record) : MessageLike → List Message
  | .template tpl => tpl.format_messages kwargs
  | .literal m => [m]

/-- The message composer `FewShotChatMessagePromptTemplate`
(few_shot.py lines 167-353).  `prefix_` embeds the `prefix` field. -/
structure FewShotChatMessagePromptTemplate where
  examples : Option (List Record) := none
  example_selector : Option Selector := none
  prefix_ : List MessageLike := []
  example_prompt : MessageTemplate
  suffix : List MessageLike := []

/-- The method `FewShotChatMessagePromptTemplate.format_messages`
(few_shot.py lines 313-353): acquire the examples, project each record to
`example_prompt.input_variables`, expand the prefix entries, expand
`example_prompt` on each projected record, expand the suffix entries, and
return the concatenation prefix + examples + suffix. -/
def FewShotChatMessagePromptTemplate.format_messages
    (t : FewShotChatMessagePromptTemplate) (kwargs : Record) :
    Except String (List Message) :=
  match get_examples t.examples t.example_selector kwargs with
  | .error e => .error e
  | .ok examples =>
    match mapE (projectKeys t.example_prompt.input_variables) examples with
    | .error e => .error e
    | .ok projected =>
      let prefix_messages := (t.prefix_.map (expandEntry kwargs)).flatten
      let messages := (projected.map t.example_prompt.format_messages).flatten
      let suffix_messages := (t.suffix.map (expandEntry kwargs)).flatten
      .ok (prefix_messages ++ messages ++ suffix_messages)

/-- Pydantic construction of a `FewShotChatMessagePromptTemplate`: only the
mixin's pre root validator applies. -/
def FewShotChatMessagePromptTemplate.construct
    (t : FewShotChatMessagePromptTemplate) :
    Except String FewShotChatMessagePromptTemplate :=
  match check_examples_and_selector t.examples t.example_selector with
  | .error e => .error e
  | .ok _ => .ok t

/-- A concrete example selector used by concrete instantiations below. -/
def demoSelector : Selector := fun _ => [[("input", "2+2"), ("output", "4")]]

/-- A concrete string-mode example template: renders the record's `input`
value. -/
def demoPrompt : PromptTemplate :=
  ⟨["input"], fun r => (rlookup r "input").getD ""⟩

/-- Brace-delimit a placeholder name. -/
def braced (s : String) : String :=
  String.mk [lbrace] ++ s ++ String.mk [rbrace]

/-- A concrete static string composer. -/
def demoStatic : FewShotPromptTemplate :=
  { examples := some [[("input", "2+2")]]
    input_variables := ["q"]
    example_prompt := demoPrompt
    suffix := "S" }

/-- A concrete selector-backed string composer. -/
def demoDynamic : FewShotPromptTemplate :=
  { example_selector := some demoSelector
    input_variables := ["q"]
    example_prompt := demoPrompt
    suffix := "S" }

/-- C1: the construction-time check evaluated at the failing input — both
`examples` (as the empty list) and `example_selector` provided.  The check
accepts the configuration because the truthiness test `examples and
example_selector` is false for an empty list, although the claim and the
validator's own docstring require a ValueError whenever both are
provided. -/
theorem check_accepts_both_when_examples_empty :
    check_examples_and_selector (some []) (some demoSelector) = Except.ok () :=
  rfl

/-- C2: `_get_examples` returns the configured static list verbatim
whenever `examples` is set, for every input mapping and whatever the
selector field holds; otherwise it returns exactly
`example_selector.select_examples(inputs)` with the inputs passed through
verbatim. -/
theorem get_examples_static_and_selector (es : List Record)
    (osel : Option Selector) (sel : Selector) (kwargs : Record) :
    get_examples (some es) osel kwargs = Except.ok es ∧
    get_examples none (some sel) kwargs = Except.ok (sel kwargs) :=
  ⟨rfl, rfl⟩

/-- C8: whenever the construction-time check `check_examples_and_selector`
passed, the defensive error branch of `_get_examples` is unreachable: the
call returns a list of examples for every input mapping. -/
theorem get_examples_defensive_branch_unreachable
    (examples : Option (List Record)) (sel : Option Selector) (kwargs : Record)
    (hcheck : check_examples_and_selector examples sel = Except.ok ()) :
    ∃ es, get_examples examples sel kwargs = Except.ok es := by
  cases examples with
  | some es => exact ⟨es, rfl⟩
  | none =>
    cases sel with
    | some s => exact ⟨s kwargs, rfl⟩
    | none => simp [check_examples_and_selector, truthyList] at hcheck

/-- C8 witness: a selector-only configuration passes the check and
`_get_examples` succeeds on it. -/
theorem get_examples_defensive_branch_unreachable_witness :
    ∃ es, get_examples none (some demoSelector) [] = Except.ok es :=
  get_examples_defensive_branch_unreachable none (some demoSelector) [] rfl

/-- C7: `FewShotPromptTemplate.dict` fails with an explicit error for every
instance configured with an `example_selector`, and succeeds (delegating to
the base-class dump) for every instance configured with a static `examples`
list. -/
theorem dict_selector_fails_static_succeeds (t : FewShotPromptTemplate) :
    (∀ sel, t.example_selector = some sel →
      FewShotPromptTemplate.dict t =
        Except.error "Saving an example selector is not currently supported") ∧
    (∀ es, t.examples = some es → t.example_selector = none →
      FewShotPromptTemplate.dict t = Except.ok (baseDict t)) := by
  constructor
  · intro sel h
    simp [FewShotPromptTemplate.dict, h]
  · intro es hes hnone
    simp [FewShotPromptTemplate.dict, hnone]

/-- C7 witness: the concrete dynamic composer fails its dump and the
concrete static composer succeeds. -/
theorem dict_selector_fails_static_succeeds_witness :
    FewShotPromptTemplate.dict demoDynamic =
      Except.error "Saving an example selector is not currently supported" ∧
    FewShotPromptTemplate.dict demoStatic = Except.ok (baseDict demoStatic) :=
  ⟨(dict_selector_fails_static_succeeds demoDynamic).1 demoSelector rfl,
   (dict_selector_fails_static_succeeds demoStatic).2 [[("input", "2+2")]] rfl rfl⟩

/-- C5: the projection applied to each example record before rendering uses
exactly the keys of `example_prompt.input_variables`: two records that agree
on those keys project identically (extra keys are ignored), and a record
missing a required key fails with a KeyError. -/
theorem projection_exact_keys (vars : List String) (e e2 : Record) :
    ((∀ k, k ∈ vars → rlookup e k = rlookup e2 k) →
      projectKeys vars e = projectKeys vars e2) ∧
    (∀ k, k ∈ vars → rlookup e k = none →
      ∃ msg, projectKeys vars e = Except.error msg) := by
  induction vars with
  | nil =>
    exact ⟨fun _ => rfl, fun k hk => absurd hk (List.not_mem_nil k)⟩
  | cons k0 rest ih =>
    refine ⟨?_, ?_⟩
    · intro hagree
      have h0 : rlookup e k0 = rlookup e2 k0 := hagree k0 (by simp)
      have hr : projectKeys rest e = projectKeys rest e2 :=
        ih.1 (fun k hk => hagree k (by simp [hk]))
      simp only [projectKeys, h0, hr]
    · intro k hk hnone
      rcases List.mem_cons.mp hk with heq | hmem
      · subst heq
        exact ⟨"KeyError: " ++ k, by simp [projectKeys, hnone]⟩
      · cases hl : rlookup e k0 with
        | none => exact ⟨"KeyError: " ++ k0, by simp [projectKeys, hl]⟩
        | some v =>
          obtain ⟨msg, hmsg⟩ := ih.2 k hmem hnone
          exact ⟨msg, by simp [projectKeys, hl, hmsg, Except.map]⟩

/-- C5 witness: a record with an extra key projects identically to the
record holding only the required keys, and a record missing `output`
fails. -/
theorem projection_exact_keys_witness :
    projectKeys ["input", "output"]
        [("input", "2+2"), ("output", "4"), ("extra", "zzz")] =
      projectKeys ["input", "output"] [("input", "2+2"), ("output", "4")] ∧
    ∃ msg, projectKeys ["input", "output"] [("input", "2+2")] =
      Except.error msg :=
  ⟨(projection_exact_keys ["input", "output"]
      [("input", "2+2"), ("output", "4"), ("extra", "zzz")]
      [("input", "2+2"), ("output", "4")]).1 (by decide),
   (projection_exact_keys ["input", "output"] [("input", "2+2")] []).2
      "output" (by decide) (by decide)⟩

/-- Joining a nonempty tail inserts exactly one separator after the head. -/
theorem sepJoin_cons (sep p : String) (l : List String) (h : l ≠ []) :
    sepJoin sep (p :: l) = p ++ sep ++ sepJoin sep l := by
  cases l with
  | nil => exact absurd rfl h
  | cons q rest => rfl

/-- C3: the intermediate template of `FewShotPromptTemplate.format` is the
piece list `[prefix, rendered examples..., suffix]` with empty pieces
removed, joined by the example separator: an empty prefix (resp. suffix)
contributes neither text nor a separator, and when every piece is nonempty
the result is the prefix, each rendered example in its original order, and
the suffix, with exactly one separator between consecutive pieces. -/
theorem intermediate_template_assembly (sep pre suf : String)
    (ss : List String) :
    intermediateTemplate pre ss suf sep
        = sepJoin sep ((pre :: (ss ++ [suf])).filter (fun p => p != "")) ∧
    (pre = "" → intermediateTemplate pre ss suf sep
        = sepJoin sep ((ss ++ [suf]).filter (fun p => p != ""))) ∧
    (suf = "" → intermediateTemplate pre ss suf sep
        = sepJoin sep ((pre :: ss).filter (fun p => p != ""))) ∧
    (pre ≠ "" → suf ≠ "" → (∀ s ∈ ss, s ≠ "") →
      intermediateTemplate pre ss suf sep
        = pre ++ sep ++ sepJoin sep (ss ++ [suf])) := by
  refine ⟨rfl, ?_, ?_, ?_⟩
  · intro h
    subst h
    simp [intermediateTemplate, List.filter_cons]
  · intro h
    subst h
    simp [intermediateTemplate, List.filter_cons, List.filter_append]
  · intro hp hs hss
    have hall : ∀ p_ ∈ pre :: (ss ++ [suf]), (p_ != "") = true := by
      intro p_ hp_
      rcases List.mem_cons.mp hp_ with h1 | h1
      · subst h1
        simpa [bne_iff_ne] using hp
      · rcases List.mem_append.mp h1 with h2 | h2
        · simpa [bne_iff_ne] using hss p_ h2
        · have h3 : p_ = suf := by simpa using h2
          subst h3
          simpa [bne_iff_ne] using hs
    rw [intermediateTemplate, List.filter_eq_self.mpr hall]
    exact sepJoin_cons sep pre (ss ++ [suf]) (by simp)

/-- C3 witness: three nonempty example strings keep their order with exactly
one separator between consecutive pieces; an empty prefix contributes no
extra separator. -/
theorem intermediate_template_assembly_witness :
    intermediateTemplate "P" ["a", "b", "c"] "S" ", " = "P, a, b, c, S" ∧
    intermediateTemplate "" ["a", "b", "c"] "S" ", " = "a, b, c, S" := by
  constructor
  · have h := (intermediate_template_assembly ", " "P" "S" ["a", "b", "c"]).2.2.2
      (by decide) (by decide) (by decide)
    exact h.trans (by rfl)
  · have h := (intermediate_template_assembly ", " "" "S" ["a", "b", "c"]).2.1 rfl
    exact h.trans (by rfl)

/-- C4: `FewShotChatMessagePromptTemplate.format_messages` returns exactly
the concatenation prefix-messages + example-messages + suffix-messages:
each prefix/suffix entry is a literal emitted unchanged or a template
expanded with the inputs, and the example messages are the per-record
expansions of `example_prompt` spliced in order with per-example internal
order preserved. -/
theorem chat_format_messages_concatenation
    (t : FewShotChatMessagePromptTemplate) (kwargs : Record)
    (es ps : List Record)
    (hex : get_examples t.examples t.example_selector kwargs = Except.ok es)
    (hproj : mapE (projectKeys t.example_prompt.input_variables) es
      = Except.ok ps) :
    FewShotChatMessagePromptTemplate.format_messages t kwargs =
      Except.ok ((t.prefix_.map (expandEntry kwargs)).flatten
        ++ (ps.map t.example_prompt.format_messages).flatten
        ++ (t.suffix.map (expandEntry kwargs)).flatten) := by
  simp [FewShotChatMessagePromptTemplate.format_messages, hex, hproj]

/-- The literal system message of the spec's message-composer example. -/
def M0 : Message := .system "You are a helpful AI Assistant"

/-- The spec's two-message example template: one human and one assistant
message per record. -/
def demoChatExamplePrompt : MessageTemplate :=
  ⟨["input", "output"],
   fun r => [.human ((rlookup r "input").getD ""),
             .ai ((rlookup r "output").getD "")]⟩

/-- The spec's suffix template: expands the `input` variable into a single
human message. -/
def demoSuffixTemplate : MessageTemplate :=
  ⟨["input"], fun kw => [.human ((rlookup kw "input").getD "")]⟩

/-- The spec's concrete message composer: literal `M0` prefix, one static
example, template suffix. -/
def demoChat : FewShotChatMessagePromptTemplate :=
  { examples := some [[("input", "2+2"), ("output", "4")]]
    prefix_ := [.literal M0]
    example_prompt := demoChatExamplePrompt
    suffix := [.template demoSuffixTemplate] }

/-- C4 witness: the spec's example evaluates to exactly
`[M0, Human "2+2", AI "4", Human "What is 4+4?"]`. -/
theorem chat_format_messages_concatenation_witness :
    FewShotChatMessagePromptTemplate.format_messages demoChat
        [("input", "What is 4+4?")] =
      Except.ok [M0, .human "2+2", .ai "4", .human "What is 4+4?"] := by
  have h := chat_format_messages_concatenation demoChat
    [("input", "What is 4+4?")]
    [[("input", "2+2"), ("output", "4")]]
    [[("input", "2+2"), ("output", "4")]] rfl rfl
  exact h.trans (by rfl)

/-- C10: `FewShotPromptTemplate.format` passes the intermediate template —
with the rendered example strings inside it — to the top-level formatting
engine together with the merged inputs, so placeholder text inside a
rendered example is substituted by the engine rather than kept literally. -/
theorem format_applies_engine_to_assembled_template
    (t : FewShotPromptTemplate) (kwargs : Record) (es ps : List Record)
    (hfmt : t.template_format = "f-string")
    (hex : get_examples t.examples t.example_selector
        (mergeVariables t.preset_variables kwargs) = Except.ok es)
    (hproj : mapE (projectKeys t.example_prompt.input_variables) es
      = Except.ok ps) :
    FewShotPromptTemplate.format t kwargs =
      fstringFormat
        (intermediateTemplate t.prefix_ (ps.map t.example_prompt.formatWith)
          t.suffix t.example_separator)
        (mergeVariables t.preset_variables kwargs) := by
  simp [FewShotPromptTemplate.format, hex, hproj, hfmt, formatterMapping]

/-- A string-mode example template that renders the record's `q` value
verbatim, so a stored example can carry placeholder text. -/
def demoVerbatimPrompt : PromptTemplate :=
  ⟨["q"], fun r => (rlookup r "q").getD ""⟩

/-- A composer whose single static example renders to text containing the
placeholder for `x`. -/
def demoPlaceholderInExample : FewShotPromptTemplate :=
  { examples := some [[("q", "see " ++ braced "x")]]
    input_variables := ["x"]
    example_prompt := demoVerbatimPrompt
    suffix := "end" }

/-- C10 witness: the placeholder inside the rendered example is substituted
by the top-level engine — the final string contains `5`, not the literal
placeholder. -/
theorem format_applies_engine_witness :
    FewShotPromptTemplate.format demoPlaceholderInExample [("x", "5")] =
      Except.ok "see 5\n\nend" := by
  have h := format_applies_engine_to_assembled_template
    demoPlaceholderInExample [("x", "5")]
    [[("q", "see " ++ braced "x")]] [[("q", "see " ++ braced "x")]]
    rfl rfl rfl
  exact h.trans (by rfl)

/-- C6: with `validate_template` set, the concatenated prefix+suffix text is
checked at construction against the declared `input_variables` plus the
partial-variable names: a placeholder outside that set, or a declared
variable with no placeholder, makes construction fail; and the check never
runs at format time — `format` is independent of the flag. -/
theorem template_validated_at_construction_only
    (t : FewShotPromptTemplate) (evs : List String)
    (hval : t.validate_template = true)
    (hevs : extractVarsAux (t.prefix_ ++ t.suffix).data none = Except.ok evs)
    (hbad : (∃ v ∈ evs, v ∉ declaredVars t) ∨
      (∃ v ∈ declaredVars t, v ∉ evs)) :
    (∃ msg, FewShotPromptTemplate.construct t = Except.error msg) ∧
    (∀ kwargs b,
      FewShotPromptTemplate.format { t with validate_template := b } kwargs =
        FewShotPromptTemplate.format t kwargs) := by
  constructor
  · have hcv : ∃ msg,
        check_valid_template (t.prefix_ ++ t.suffix) (declaredVars t) =
          Except.error msg := by
      simp only [check_valid_template, hevs]
      by_cases h1 : evs.all (fun v => decide (v ∈ declaredVars t)) = true
      · rcases hbad with ⟨v, hv, hnv⟩ | ⟨v, hv, hnv⟩
        · exact absurd (of_decide_eq_true (List.all_eq_true.mp h1 v hv)) hnv
        · have h2 : (declaredVars t).all (fun v => decide (v ∈ evs)) = false := by
            rcases h3 : (declaredVars t).all (fun v => decide (v ∈ evs)) with _ | _
            · rfl
            · exact absurd (of_decide_eq_true (List.all_eq_true.mp h3 v hv)) hnv
          simp only [h1, h2]
          exact ⟨_, rfl⟩
      · have h1' : evs.all (fun v => decide (v ∈ declaredVars t)) = false :=
          Bool.eq_false_iff.mpr h1
        simp only [h1']
        exact ⟨_, rfl⟩
    obtain ⟨msg, hmsg⟩ := hcv
    unfold FewShotPromptTemplate.construct
    cases hce : check_examples_and_selector t.examples t.example_selector with
    | error e => exact ⟨e, rfl⟩
    | ok _ =>
      unfold template_is_valid
      rw [hval]
      simp only [if_true, hmsg]
      exact ⟨msg, rfl⟩
  · intro kwargs b
    rfl

/-- The spec's invalid composer: prefix `Answer: \x7bx\x7d`, suffix
`\x7by\x7d`, declared input variables `["x"]`, validation on. -/
def demoInvalidTemplate : FewShotPromptTemplate :=
  { examples := some []
    input_variables := ["x"]
    example_prompt := demoPrompt
    suffix := braced "y"
    prefix_ := "Answer: " ++ braced "x" }

/-- C6 witness: constructing the spec's invalid composer fails because `y`
is referenced but not declared. -/
theorem template_validated_at_construction_only_witness :
    ∃ msg, FewShotPromptTemplate.construct demoInvalidTemplate =
      Except.error msg :=
  (template_validated_at_construction_only demoInvalidTemplate ["x", "y"]
    rfl rfl (Or.inl ⟨"y", by decide, by decide⟩)).1

/-- Erasing an element commutes with a successful comprehension: the results
of the remaining elements are unchanged. -/
theorem mapE_eraseIdx (f : α → Except String β) (l : List α) (bs : List β)
    (i : Nat) (h : mapE f l = Except.ok bs) :
    mapE f (l.eraseIdx i) = Except.ok (bs.eraseIdx i) := by
  induction l generalizing bs i with
  | nil =>
    simp only [mapE] at h
    cases h
    simp [mapE]
  | cons a l ih =>
    cases hfa : f a with
    | error e =>
      rw [mapE, hfa] at h
      cases h
    | ok b =>
      rw [mapE, hfa] at h
      cases hrest : mapE f l with
      | error e =>
        rw [hrest] at h
        cases h
      | ok bs' =>
        rw [hrest] at h
        simp only [Except.map] at h
        cases h
        cases i with
        | zero => simpa [List.eraseIdx_cons_zero] using hrest
        | succ j =>
          simp only [List.eraseIdx_cons_succ, mapE, hfa, ih bs' j hrest,
            Except.map]

/-- Mapping commutes with erasing an index. -/
theorem map_eraseIdx (g : α → β) (l : List α) (i : Nat) :
    (l.eraseIdx i).map g = (l.map g).eraseIdx i := by
  induction l generalizing i with
  | nil => simp
  | cons a l ih =>
    cases i with
    | zero => simp [List.eraseIdx_cons_zero]
    | succ j => simp [List.eraseIdx_cons_succ, ih j]

/-- Erasing an element the filter would drop anyway leaves the filtered list
unchanged. -/
theorem filter_eraseIdx_of_neg (p : α → Bool) (l : List α) (i : Nat)
    (hi : i < l.length) (h : p (l.get ⟨i, hi⟩) = false) :
    (l.eraseIdx i).filter p = l.filter p := by
  induction l generalizing i with
  | nil => simp at hi
  | cons a l ih =>
    cases i with
    | zero =>
      simp only [List.get] at h
      simp [List.eraseIdx_cons_zero, List.filter_cons, h]
    | succ j =>
      have hj : j < l.length := by simpa using hi
      have h' : p (l.get ⟨j, hj⟩) = false := by
        simpa [List.get] using h
      simp [List.eraseIdx_cons_succ, List.filter_cons, ih j hj h']

/-- Dropping a piece that renders empty does not change the assembled
intermediate template. -/
theorem intermediateTemplate_drop_empty (pre suf sep : String)
    (ss : List String) (i : Nat) (hi : i < ss.length)
    (h : ss.get ⟨i, hi⟩ = "") :
    intermediateTemplate pre (ss.eraseIdx i) suf sep =
      intermediateTemplate pre ss suf sep := by
  unfold intermediateTemplate
  congr 1
  simp only [List.filter_cons, List.filter_append]
  rw [filter_eraseIdx_of_neg _ ss i hi (by rw [h]; simp)]

/-- C9: the empty-piece filter applies to rendered example strings — a
static example whose rendering by `example_prompt` is the empty string is
dropped from the assembled output entirely, so `format` is identical to
formatting with that example removed from the list. -/
theorem format_drops_empty_rendered_example
    (t : FewShotPromptTemplate) (kwargs : Record) (es ps : List Record)
    (i : Nat)
    (hex : t.examples = some es)
    (hproj : mapE (projectKeys t.example_prompt.input_variables) es
      = Except.ok ps)
    (hi : i < ps.length)
    (hempty : t.example_prompt.formatWith (ps.get ⟨i, hi⟩) = "") :
    FewShotPromptTemplate.format t kwargs =
      FewShotPromptTemplate.format
        { t with examples := some (es.eraseIdx i) } kwargs := by
  have hproj2 := mapE_eraseIdx (projectKeys t.example_prompt.input_variables)
    es ps i hproj
  have himap : i < (ps.map t.example_prompt.formatWith).length := by
    simpa using hi
  have hget : (ps.map t.example_prompt.formatWith).get ⟨i, himap⟩ = "" := by
    simpa [List.getElem_map] using hempty
  have hT : intermediateTemplate t.prefix_
      ((ps.eraseIdx i).map t.example_prompt.formatWith) t.suffix
        t.example_separator
      = intermediateTemplate t.prefix_
          (ps.map t.example_prompt.formatWith) t.suffix
          t.example_separator := by
    rw [map_eraseIdx]
    exact intermediateTemplate_drop_empty _ _ _ _ i himap hget
  simp [FewShotPromptTemplate.format, hex, get_examples, hproj, hproj2, hT]

/-- A composer with two static examples of which the first renders to the
empty string. -/
def demoEmptyRendered : FewShotPromptTemplate :=
  { examples := some [[("q", "")], [("q", "a")]]
    input_variables := ["x"]
    example_prompt := demoVerbatimPrompt
    suffix := "S" }

/-- C9 witness: formatting with the empty-rendering example present equals
formatting with it removed. -/
theorem format_drops_empty_rendered_example_witness :
    FewShotPromptTemplate.format demoEmptyRendered [("x", "1")] =
      FewShotPromptTemplate.format
        { demoEmptyRendered with examples := some [[("q", "a")]] }
        [("x", "1")] :=
  format_drops_empty_rendered_example demoEmptyRendered [("x", "1")]
    [[("q", "")], [("q", "a")]] [[("q", "")], [("q", "a")]] 0 rfl rfl
    (by decide) rfl
